import Mathlib

/-!
Verification of the Modbus register transcoding and resilient-session layer of
the mennekes-amtron-rpc repository (src/modbus-client.js, src/registers.js).

The JavaScript source is shallowly embedded: Node `Buffer`s become lists of
byte values, JavaScript 32-bit bitwise arithmetic is modelled by explicit
wrap-around on `Int`/`Nat`, thrown exceptions become `Except`, and the
stateful session (`isConnected`, `reconnecting`, timers, events) becomes
explicit state passing with an event/delay trace.
-/

deriving instance DecidableEq for Except

namespace Amtron

/-- The `type` field of a register definition (string in the source). -/
inductive RegType
  | uint16
  | uint32
  | int16
  | int32
  | float
  | ascii
deriving DecidableEq, Repr

/-- A register descriptor as found in `registers.js` (`REGISTERS`).  Only the
fields consulted by `modbus-client.js` are carried (`address`, `length`,
`type`, `access`); the purely documentary fields (`name`, `description`,
`unit`, `values`, `range`, `version`) are dropped. -/
structure Register where
  address : Nat
  length : Nat
  type : RegType
  access : String
deriving DecidableEq, Repr

/-- A Node `Buffer`: a list of byte values (each `< 256` for buffers that
come off the wire or out of `Buffer` writes). -/
abbrev Buffer := List Nat

/-- `buffer.readUInt16BE(off)`: big-endian 16-bit read.  (Node throws on an
out-of-range offset; every use in the source reads inside an adequately
sized buffer, so out-of-range reads default to 0 here.) -/
def readUInt16BE (buf : Buffer) (off : Nat) : Nat :=
  256 * buf.getD off 0 + buf.getD (off + 1) 0

/-- Reinterpret an unsigned 16-bit value as a two's-complement signed one. -/
def toSigned16 (n : Nat) : Int :=
  if n < 32768 then (n : Int) else (n : Int) - 65536

/-- `buffer.readInt16BE(off)`. -/
def readInt16BE (buf : Buffer) (off : Nat) : Int :=
  toSigned16 (readUInt16BE buf off)

/-- Big-endian 32-bit read of four bytes (used to model `readFloatBE`: the
double returned by `readFloatBE` is the IEEE-754 single-precision value
whose big-endian bit pattern is these four bytes, so the result is
represented by that pattern). -/
def readUInt32BE (buf : Buffer) (off : Nat) : Nat :=
  16777216 * buf.getD off 0 + 65536 * buf.getD (off + 1) 0 +
    256 * buf.getD (off + 2) 0 + buf.getD (off + 3) 0

/-- ECMAScript `ToUint32`: the argument reduced into `[0, 2^32)`. -/
def toUint32 (n : Int) : Nat :=
  (n % 4294967296).toNat

/-- ECMAScript `ToInt32`: the argument reduced into `[-2^31, 2^31)`. -/
def toInt32 (n : Int) : Int :=
  if n % 4294967296 < 2147483648 then n % 4294967296
  else n % 4294967296 - 4294967296

/-- JavaScript `a << b` (32-bit left shift with wrap-around). -/
def jsShl (a : Int) (b : Nat) : Int :=
  toInt32 (toInt32 a * 2 ^ (b % 32))

/-- JavaScript `a >> b` (sign-propagating right shift: floor division of the
32-bit value; with a positive divisor, Lean's Euclidean `/` on `Int` is
floor division). -/
def jsShr (a : Int) (b : Nat) : Int :=
  toInt32 a / 2 ^ (b % 32)

/-- JavaScript `a | b` (bitwise or on the 32-bit patterns). -/
def jsOr (a b : Int) : Int :=
  toInt32 (toUint32 a ||| toUint32 b)

/-- JavaScript `a & b` (bitwise and on the 32-bit patterns). -/
def jsAnd (a b : Int) : Int :=
  toInt32 (toUint32 a &&& toUint32 b)

/-- `buffer.writeUInt16BE(value, off)`: Node validates
`0 ≤ value ≤ 0xFFFF` (throwing `ERR_OUT_OF_RANGE` otherwise) and stores the
two big-endian bytes. -/
def writeUInt16BE (buf : Buffer) (v : Int) (off : Nat) : Except String Buffer :=
  if 0 ≤ v ∧ v ≤ 65535 then
    .ok ((buf.set off (v.toNat / 256)).set (off + 1) (v.toNat % 256))
  else
    .error "ERR_OUT_OF_RANGE"

/-- `buffer.writeInt16BE(value, off)`: Node validates
`-0x8000 ≤ value ≤ 0x7FFF` (throwing `ERR_OUT_OF_RANGE` otherwise) and
stores the two's-complement big-endian bytes. -/
def writeInt16BE (buf : Buffer) (v : Int) (off : Nat) : Except String Buffer :=
  if -32768 ≤ v ∧ v ≤ 32767 then
    .ok ((buf.set off ((v % 65536).toNat / 256)).set (off + 1) ((v % 65536).toNat % 256))
  else
    .error "ERR_OUT_OF_RANGE"

/-- The numeric value (as a rational) of the IEEE-754 single-precision
number with bit pattern `b` (meaningful for finite patterns, i.e. exponent
field `≠ 255`).  A normal number is `±(2^23 + m)·2^(e-150)`, a denormal is
`±m·2^(-149)`. -/
def float32ToRat (b : Nat) : ℚ :=
  let s : Nat := b / 2 ^ 31 % 2
  let e : Nat := b / 2 ^ 23 % 256
  let m : Nat := b % 2 ^ 23
  let sign : ℚ := if s = 1 then -1 else 1
  if e = 0 then sign * (m : ℚ) / 2 ^ 149
  else sign * ((2 ^ 23 + (m : ℚ)) * 2 ^ e / 2 ^ 150)

/-- Exponent field of a float32 bit pattern is all-ones (infinity / NaN). -/
def float32ExpAllOnes (b : Nat) : Prop :=
  b / 2 ^ 23 % 256 = 255

instance (b : Nat) : Decidable (float32ExpAllOnes b) := by
  unfold float32ExpAllOnes; infer_instance

/-- The four big-endian bytes written by `tempBuffer.writeFloatBE(value, 0)`
when `value` is the float32 with bit pattern `bits` (for a value already
representable in single precision, `writeFloatBE` stores exactly its bit
pattern). -/
def floatBytes (bits : Nat) : Buffer :=
  [bits / 16777216 % 256, bits / 65536 % 256, bits / 256 % 256, bits % 256]

/-- A JavaScript value returned by / passed to the codec.  Numbers that are
results of the float path are represented by their IEEE-754 single-precision
bit pattern (`fnum`), which determines the double that `readFloatBE`
returns. -/
inductive Value
  | num (n : Int)
  | fnum (bits : Nat)
  | str (s : String)
deriving DecidableEq, Repr

/-- Byte-swap within each 16-bit pair, as the `for (let i = 0; ...; i += 2)`
loop of the `ascii` case does (buffers always have even length
`register.length * 2`). -/
def swapPairs : Buffer → Buffer
  | a :: b :: rest => b :: a :: swapPairs rest
  | rest => rest

/-- JavaScript `String.prototype.trim` whitespace, restricted to the ASCII
range that `buffer.toString('ascii')` can produce: tab through carriage
return, and space. -/
def isJsSpace (c : Char) : Bool :=
  (c.toNat == 32) || (Nat.ble 9 c.toNat && Nat.ble c.toNat 13)

/-- `.trim()` on a character list. -/
def jsTrim (s : List Char) : List Char :=
  ((s.dropWhile isJsSpace).reverse.dropWhile isJsSpace).reverse

/-- `buffer.toString('ascii')` (each byte masked to 7 bits), followed by
`.replace(/\0/g, '')` and `.trim()`. -/
def asciiClean (bytes : Buffer) : String :=
  ⟨jsTrim (((bytes.map fun b => Char.ofNat (b % 128)).filter fun c => c.toNat ≠ 0))⟩

/-- `parseRegisterValue(register, buffer)` from `modbus-client.js`.
Errors thrown inside the function are re-thrown by its `catch` block, hence
`Except`.  The `float` case copies the two 16-bit words of the input buffer
unchanged into a temporary buffer (offsets 0→0 and 2→2) and reads that as a
big-endian float32 — there is no word swap in the source. -/
def parseRegisterValue (register : Register) (buffer : Buffer) : Except String Value :=
  match register.type with
  | .uint16 => .ok (.num (readUInt16BE buffer 0))
  | .uint32 =>
      -- LowWord/HighWord order
      .ok (.num (jsOr (jsShl (readUInt16BE buffer 2) 16) (readUInt16BE buffer 0)))
  | .int16 => .ok (.num (readInt16BE buffer 0))
  | .int32 =>
      -- LowWord/HighWord order
      .ok (.num (jsOr (jsShl (readInt16BE buffer 2) 16) (readInt16BE buffer 0)))
  | .float => do
      let t0 : Buffer := [0, 0, 0, 0]
      let t1 ← writeUInt16BE t0 (readUInt16BE buffer 0) 0
      let t2 ← writeUInt16BE t1 (readUInt16BE buffer 2) 2
      .ok (.fnum (readUInt32BE t2 0))
  | .ascii =>
      .ok (.str (asciiClean (swapPairs buffer)))

/-- `encodeRegisterValue(register, value)` from `modbus-client.js`:
allocates a buffer of `register.length * 2` bytes, writes the value
according to the type, and returns the list of 16-bit register words read
back from the buffer.  Range violations inside Node's `write*BE` throw and
are re-thrown by the `catch` block.  Integer-typed registers receive an
integer `value`; the float case receives a single-precision-representable
number given by its bit pattern. -/
def encodeRegisterValue (register : Register) (value : Value) : Except String (List Nat) :=
  let buffer : Buffer := List.replicate (register.length * 2) 0
  match register.type, value with
  | .uint16, .num v => do
      let b ← writeUInt16BE buffer v 0
      .ok [readUInt16BE b 0]
  | .uint32, .num v => do
      -- Write as LowWord/HighWord order
      let b ← writeUInt16BE buffer (jsAnd v 65535) 0
      let b ← writeUInt16BE b (jsAnd (jsShr v 16) 65535) 2
      .ok [readUInt16BE b 0, readUInt16BE b 2]
  | .int16, .num v => do
      let b ← writeInt16BE buffer v 0
      .ok [readUInt16BE b 0]
  | .int32, .num v => do
      -- Write as LowWord/HighWord order
      let b ← writeInt16BE buffer (jsAnd v 65535) 0
      let b ← writeInt16BE b (jsAnd (jsShr v 16) 65535) 2
      .ok [readUInt16BE b 0, readUInt16BE b 2]
  | .float, .fnum bits => do
      let tempBuffer := floatBytes bits
      let b ← writeUInt16BE buffer (readUInt16BE tempBuffer 0) 0
      let b ← writeUInt16BE b (readUInt16BE tempBuffer 2) 2
      .ok [readUInt16BE b 0, readUInt16BE b 2]
  | _, _ => .error "Cannot encode type"

/-- The wire form of a list of 16-bit words: the Modbus response buffer has
each word as two big-endian bytes, in word order. -/
def bufferOfWords (ws : List Nat) : Buffer :=
  ws.flatMap fun w => [w / 256 % 256, w % 256]

/-- Round trip used by the codec law: encode, then decode the buffer form. -/
def decodeEncode (register : Register) (value : Value) : Except String Value :=
  (encodeRegisterValue register value).bind fun ws =>
    parseRegisterValue register (bufferOfWords ws)

/-- Spec-side description of `ascii-string` decoding (specification §4.2):
un-reverse the two bytes inside each 16-bit word (the word's low byte comes
first), concatenate in word order, decode the bytes as ASCII text, strip
null bytes and trim surrounding whitespace.  Used to compare the source's
implementation against the specification's wording. -/
def specAsciiDecode (ws : List Nat) : String :=
  asciiClean (ws.flatMap fun w => [w % 256, w / 256 % 256])

/-! ## The session state machine of `ModbusClient`

Mutable fields of the client relevant to the claims, plus a count of
scheduled one-shot timers: `pendingReconnects` counts `setTimeout`
callbacks armed by `scheduleReconnect` that have not fired yet, and
`pendingInitialBeats` counts the 2-second first-heartbeat `setTimeout`
callbacks armed by `startHeartbeat` (the source never stores their handles).
`heartbeatIntervalActive` is whether `this.heartbeatInterval` holds a live
`setInterval` handle. -/

structure SessionState where
  isConnected : Bool
  reconnecting : Bool
  pendingReconnects : Nat
  heartbeatIntervalActive : Bool
  pendingInitialBeats : Nat
deriving DecidableEq, Repr

/-- Events emitted through the `EventEmitter`. -/
inductive Event
  | connected
  | disconnected
  | error
  | connectionLost
deriving DecidableEq, Repr

/-- Classification of the message of an error coming out of the
modbus-serial transport, by the two substrings the source tests for. -/
inductive ErrKind
  | portNotOpen
  | timedOut
  | other
deriving DecidableEq, Repr

/-- Errors a `readRegister`/`writeRegister` call can reject with. -/
inductive RpcError
  | unknownRegister
  | notReadable
  | notWritable
  | notConnected
  | wire (k : ErrKind)
  | codec (msg : String)
deriving DecidableEq, Repr

/-- `error.message.includes('Port Not Open') || error.message.includes('Timed Out')`:
true exactly for transport errors of those kinds.  The messages of the
errors thrown by the client itself (`Unknown register: …`,
`Register … is not readable/writable`, `Not connected to Modbus device`,
codec errors) contain neither substring. -/
def errIndicatesConnLoss : RpcError → Bool
  | .wire .portNotOpen => true
  | .wire .timedOut => true
  | _ => false

/-- JavaScript `str.includes(c)` for a one-character needle: membership of
the character in the string (stated on the string's character list, which
computes). -/
def stringIncludes (s : String) (c : Char) : Bool :=
  s.data.contains c

/-- `scheduleReconnect()`: a no-op while `reconnecting` is set; otherwise
sets the flag and arms one `setTimeout(... connect ..., reconnectInterval)`. -/
def scheduleReconnect (s : SessionState) : SessionState :=
  if s.reconnecting then s
  else { s with reconnecting := true, pendingReconnects := s.pendingReconnects + 1 }

/-- Result of running one client operation: the returned/thrown value, the
session state afterwards, the total number of wire operations issued so far
(the index into the transport oracle), the events emitted, and the
`delay(500)` waits performed, in order. -/
structure RunResult (α : Type) where
  result : Except RpcError α
  state : SessionState
  calls : Nat
  events : List Event
  delays : List Nat
deriving DecidableEq, Repr

/-- The body of `readRegister`'s `try` block: check `isConnected`, issue
`readHoldingRegisters` (the transport oracle maps the index of the wire
operation to its outcome), and parse.  Returns the thrown error or the
parsed value, together with the updated wire-operation count. -/
def attemptRead (register : Register) (oracle : Nat → Except ErrKind Buffer)
    (s : SessionState) (calls : Nat) : Except RpcError Value × Nat :=
  if s.isConnected = false then
    (.error .notConnected, calls)
  else
    match oracle calls with
    | .error k => (.error (.wire k), calls + 1)
    | .ok data =>
        match parseRegisterValue register data with
        | .ok v => (.ok v, calls + 1)
        | .error m => (.error (.codec m), calls + 1)

/-- `readRegister(registerName, retryCount)` from `modbus-client.js`:
resolve the name in `REGISTERS` (the catalog is the imported `REGISTERS`
object, passed here as a parameter), reject non-readable registers, then
run the `try` block; on a caught error retry after `delay(500)` while
`retryCount < maxRetries`, and once retries are exhausted run the
connection-lost block (mark disconnected, emit `connectionLost`, schedule a
reconnect) if the error message indicates `Port Not Open`/`Timed Out`,
finally re-throwing the error. -/
def readRegister (catalog : String → Option Register) (maxRetries : Nat)
    (oracle : Nat → Except ErrKind Buffer) (name : String) (retryCount : Nat)
    (s : SessionState) (calls : Nat) : RunResult Value :=
  match catalog name with
  | none => ⟨.error .unknownRegister, s, calls, [], []⟩
  | some register =>
    if stringIncludes register.access 'R' = false then
      ⟨.error .notReadable, s, calls, [], []⟩
    else
      match attemptRead register oracle s calls with
      | (.ok v, calls') => ⟨.ok v, s, calls', [], []⟩
      | (.error e, calls') =>
        if h : retryCount < maxRetries then
          let r := readRegister catalog maxRetries oracle name (retryCount + 1) s calls'
          { r with delays := 500 :: r.delays }
        else if errIndicatesConnLoss e then
          ⟨.error e, scheduleReconnect { s with isConnected := false }, calls',
            [.connectionLost], []⟩
        else
          ⟨.error e, s, calls', [], []⟩
termination_by maxRetries - retryCount
decreasing_by omega

/-- The body of `writeRegister`'s `try` block: check `isConnected`, encode
(`encodeRegisterValue` throws out of the `try` block on a range error,
before any wire operation), then issue the single- or multi-register write
(one wire operation either way; `register.length` only selects the Modbus
function code). -/
def attemptWrite (register : Register) (value : Value)
    (oracle : Nat → Option ErrKind) (s : SessionState) (calls : Nat) :
    Except RpcError Unit × Nat :=
  if s.isConnected = false then
    (.error .notConnected, calls)
  else
    match encodeRegisterValue register value with
    | .error m => (.error (.codec m), calls)
    | .ok _buffer =>
        match oracle calls with
        | some k => (.error (.wire k), calls + 1)
        | none => (.ok (), calls + 1)

/-- `writeRegister(registerName, value, retryCount)` from
`modbus-client.js`: symmetric to `readRegister`, with the writability check
and the encoder inside the `try` block. -/
def writeRegister (catalog : String → Option Register) (maxRetries : Nat)
    (oracle : Nat → Option ErrKind) (name : String) (value : Value)
    (retryCount : Nat) (s : SessionState) (calls : Nat) : RunResult Unit :=
  match catalog name with
  | none => ⟨.error .unknownRegister, s, calls, [], []⟩
  | some register =>
    if stringIncludes register.access 'W' = false then
      ⟨.error .notWritable, s, calls, [], []⟩
    else
      match attemptWrite register value oracle s calls with
      | (.ok (), calls') => ⟨.ok (), s, calls', [], []⟩
      | (.error e, calls') =>
        if h : retryCount < maxRetries then
          let r := writeRegister catalog maxRetries oracle name value (retryCount + 1) s calls'
          { r with delays := 500 :: r.delays }
        else if errIndicatesConnLoss e then
          ⟨.error e, scheduleReconnect { s with isConnected := false }, calls',
            [.connectionLost], []⟩
        else
          ⟨.error e, s, calls', [], []⟩
termination_by maxRetries - retryCount
decreasing_by omega

/-- `connect()`:  on success set `isConnected`, clear `reconnecting`, emit
`connected` (the 30-second connection-monitoring interval it also starts is
not modelled; no claim depends on it).  On failure clear `isConnected`,
emit `error`, call `scheduleReconnect()` and re-throw.  The boolean result
records whether the call threw. -/
def connect (s : SessionState) (success : Bool) :
    SessionState × List Event × Bool :=
  if success then
    ({ s with isConnected := true, reconnecting := false }, [.connected], false)
  else
    (scheduleReconnect { s with isConnected := false }, [.error], true)

/-- The `setTimeout` callback armed by `scheduleReconnect` firing: the
pending timer is consumed, then `this.connect()` runs with its rejection
swallowed by `.catch(...)`. -/
def fireScheduledReconnect (s : SessionState) (success : Bool) :
    SessionState × List Event :=
  let s₁ := { s with pendingReconnects := s.pendingReconnects - 1 }
  let (s₂, evs, _threw) := connect s₁ success
  (s₂, evs)

/-- `startHeartbeat()`: a no-op when the interval handle is already stored;
otherwise arms the 2-second first-beat `setTimeout` (whose handle is
discarded by the source) and stores the 9-second `setInterval` handle. -/
def startHeartbeat (s : SessionState) : SessionState :=
  if s.heartbeatIntervalActive then s
  else { s with pendingInitialBeats := s.pendingInitialBeats + 1,
                heartbeatIntervalActive := true }

/-- `stopHeartbeat()`: if the interval handle is stored, `clearInterval` it
and null the field; nothing else is cancelled. -/
def stopHeartbeat (s : SessionState) : SessionState :=
  if s.heartbeatIntervalActive then { s with heartbeatIntervalActive := false }
  else s

/-- The `REGISTERS` object of `registers.js`: name, address, word count,
type and access of every register (the documentary fields are dropped, see
`Register`). -/
def REGISTERS : List (String × Register) := [
  ("MODBUS_VERSION", ⟨0x0000, 1, .uint16, "R"⟩),
  ("FIRMWARE_VERSION", ⟨0x0001, 8, .ascii, "R"⟩),
  ("SERIAL_NUMBER", ⟨0x0013, 8, .ascii, "R"⟩),
  ("EVSE_STATE", ⟨0x0100, 1, .uint16, "R"⟩),
  ("AUTHORIZATION_STATUS", ⟨0x0101, 1, .uint16, "R"⟩),
  ("DOWNGRADE", ⟨0x0102, 1, .uint16, "R"⟩),
  ("PHASE_ROTATION", ⟨0x0103, 1, .uint16, "R"⟩),
  ("CP_STATE", ⟨0x0108, 1, .uint16, "R"⟩),
  ("SIGNALED_CURRENT", ⟨0x0114, 2, .float, "R"⟩),
  ("DOWNGRADE_CURRENT", ⟨0x0300, 2, .float, "R"⟩),
  ("CHARGING_CURRENT_EM", ⟨0x0302, 2, .float, "RW"⟩),
  ("MAX_CURRENT_HOUSE", ⟨0x0304, 2, .float, "R"⟩),
  ("MAX_CURRENT_EVSE", ⟨0x0306, 2, .float, "R"⟩),
  ("PHASE_SWITCHING_MODE", ⟨0x030A, 1, .uint16, "R"⟩),
  ("PHASE_OPTIONS_HW", ⟨0x030C, 1, .uint16, "R"⟩),
  ("CABLE_LOCK_CONFIG", ⟨0x030D, 1, .uint16, "R"⟩),
  ("MASTER_LOST_FALLBACK_CURRENT", ⟨0x030E, 1, .uint16, "R"⟩),
  ("GRID_IMBALANCE", ⟨0x030F, 1, .uint16, "R"⟩),
  ("GRID_IMBALANCE_THRESHOLD", ⟨0x0310, 1, .uint16, "R"⟩),
  ("GRID_PHASES_CONNECTED", ⟨0x0311, 1, .uint16, "R"⟩),
  ("AUTHORIZATION", ⟨0x0312, 1, .uint16, "R"⟩),
  ("SOLAR_SUPPORTED_CHARGING_CURRENT", ⟨0x0313, 1, .uint16, "R"⟩),
  ("PHASE_SWITCHING_PAUSE", ⟨0x0314, 1, .uint16, "R"⟩),
  ("CURRENT_L1", ⟨0x0500, 2, .float, "R"⟩),
  ("CURRENT_L2", ⟨0x0502, 2, .float, "R"⟩),
  ("CURRENT_L3", ⟨0x0504, 2, .float, "R"⟩),
  ("VOLTAGE_L1", ⟨0x0506, 2, .float, "R"⟩),
  ("VOLTAGE_L2", ⟨0x0508, 2, .float, "R"⟩),
  ("VOLTAGE_L3", ⟨0x050A, 2, .float, "R"⟩),
  ("POWER_L1", ⟨0x050C, 2, .float, "R"⟩),
  ("POWER_L2", ⟨0x050E, 2, .float, "R"⟩),
  ("POWER_L3", ⟨0x0510, 2, .float, "R"⟩),
  ("POWER_OVERALL", ⟨0x0512, 2, .float, "R"⟩),
  ("MAXIMAL_EVSE_CURRENT", ⟨0x0706, 1, .uint16, "RW"⟩),
  ("PHASE_ROTATION_SETTING", ⟨0x070A, 1, .uint16, "RW"⟩),
  ("CONNECTED_PHASES", ⟨0x0710, 1, .uint16, "RW"⟩),
  ("PHASE_USAGE_SOLAR_CHARGING", ⟨0x071A, 1, .uint16, "RW"⟩),
  ("FALLBACK_CURRENT_MASTER_LOST", ⟨0x073A, 1, .uint16, "RW"⟩),
  ("SOLAR_CHARGING_ACTIVE", ⟨0x073C, 1, .uint16, "RW"⟩),
  ("PHASE_SWITCHING_PAUSE_SETTING", ⟨0x078C, 1, .uint16, "RW"⟩),
  ("TEMPERATURE", ⟨0x0900, 2, .float, "R"⟩),
  ("MAX_CURRENT_SESSION", ⟨0x0B00, 2, .float, "R"⟩),
  ("CHARGED_ENERGY_SESSION", ⟨0x0B02, 2, .float, "R"⟩),
  ("DURATION_SESSION", ⟨0x0B04, 2, .uint32, "R"⟩),
  ("DETECTED_EV_PHASES", ⟨0x0B06, 1, .uint16, "R"⟩),
  ("HEARTBEAT_EM", ⟨0x0D00, 1, .uint16, "W"⟩),
  ("CABLE_LOCK_STATUS", ⟨0x0D02, 1, .uint16, "R"⟩),
  ("SOLAR_CHARGING_MODE", ⟨0x0D03, 1, .uint16, "RW"⟩),
  ("REQUESTED_PHASES", ⟨0x0D04, 1, .uint16, "RW"⟩),
  ("CHARGING_RELEASE_EM", ⟨0x0D05, 1, .uint16, "RW"⟩),
  ("LOCK_EVSE", ⟨0x0D06, 1, .uint16, "RW"⟩),
  ("SYSTEM_RESTART", ⟨0x0D19, 1, .uint16, "W"⟩),
  ("ACTIVE_ERROR_CODE", ⟨0x0E00, 1, .uint16, "R"⟩),
  ("MASTER_LOST_FALLBACK_STATE", ⟨0x0E01, 1, .uint16, "R"⟩),
  ("SWITCHED_PHASES", ⟨0x0E02, 1, .uint16, "R"⟩),
  ("CHARGED_ENERGY_TOTAL", ⟨0x1000, 2, .float, "R"⟩),
  ("CHARGING_SESSIONS_TOTAL", ⟨0x1002, 2, .uint32, "R"⟩)]

/-- `REGISTERS[registerName]` — property lookup on the catalog object. -/
def registersLookup (name : String) : Option Register :=
  REGISTERS.lookup name

/-! ## Helper lemmas -/

lemma lor_high_low (hi lo : Nat) (h : lo < 65536) :
    (hi * 65536) ||| lo = hi * 65536 + lo := by
  apply Nat.eq_of_testBit_eq
  intro i
  rw [Nat.testBit_or]
  rcases Nat.lt_or_ge i 16 with h16 | h16
  · have key : ∀ x : Nat, x.testBit i = (x % 65536).testBit i := by
      intro x
      have t := Nat.testBit_mod_two_pow x 16 i
      rw [show (2:Nat) ^ 16 = 65536 by norm_num] at t
      rw [t]
      simp [h16]
    have h1 : (hi * 65536).testBit i = false := by
      rw [key]
      simp [Nat.mul_mod_left]
    have h2 : (hi * 65536 + lo).testBit i = lo.testBit i := by
      rw [key (hi * 65536 + lo)]
      have e : (hi * 65536 + lo) % 65536 = lo := by omega
      rw [e]
    rw [h1, h2, Bool.false_or]
  · have hlo2 : lo.testBit i = false := by
      apply Nat.testBit_lt_two_pow
      calc lo < 65536 := h
        _ = 2 ^ 16 := by norm_num
        _ ≤ 2 ^ i := Nat.pow_le_pow_right (by norm_num) h16
    have hhi2 : (hi * 65536).testBit i = hi.testBit (i - 16) := by
      rw [show hi * 65536 = hi <<< 16 by rw [Nat.shiftLeft_eq]]
      rw [Nat.testBit_shiftLeft]
      simp [h16]
    have hsum : (hi * 65536 + lo).testBit i = hi.testBit (i - 16) := by
      rw [Nat.testBit_to_div_mod, Nat.testBit_to_div_mod]
      have e : (2:Nat) ^ i = 65536 * 2 ^ (i - 16) := by
        rw [show (65536:Nat) = 2 ^ 16 by norm_num, ← Nat.pow_add]
        congr 1
        omega
      rw [e, ← Nat.div_div_eq_div_mul]
      have e2 : (hi * 65536 + lo) / 65536 = hi := by omega
      rw [e2]
    rw [hlo2, hhi2, hsum, Bool.or_false]

lemma jsShl16_of_lt (hi : Nat) (hhi : hi < 65536) :
    jsShl (hi : Int) 16 = if hi < 32768 then ((hi : Int) * 65536)
      else ((hi : Int) * 65536 - 4294967296) := by
  unfold jsShl toInt32
  have e : (2:Int) ^ (16 % 32) = 65536 := by norm_num
  rw [e]
  split_ifs <;> omega

lemma toUint32_jsShl16 (hi : Nat) (hhi : hi < 65536) :
    toUint32 (jsShl (hi : Int) 16) = hi * 65536 := by
  rw [jsShl16_of_lt hi hhi]
  unfold toUint32
  split_ifs <;> omega

lemma jsOr_jsShl16 (hi lo : Nat) (hhi : hi < 65536) (hlo : lo < 65536) :
    jsOr (jsShl (hi : Int) 16) (lo : Int) =
      if hi < 32768 then ((hi * 65536 + lo : Nat) : Int)
      else ((hi * 65536 + lo : Nat) : Int) - 4294967296 := by
  unfold jsOr
  rw [toUint32_jsShl16 hi hhi]
  rw [show toUint32 (lo : Int) = lo by unfold toUint32; omega]
  rw [lor_high_low hi lo hlo]
  unfold toInt32
  split_ifs <;> omega

lemma writeUInt16BE_ok (buf : Buffer) (v : Int) (off : Nat) (h0 : 0 ≤ v) (h1 : v ≤ 65535) :
    writeUInt16BE buf v off =
      .ok ((buf.set off (v.toNat / 256)).set (off + 1) (v.toNat % 256)) := by
  rw [writeUInt16BE, if_pos ⟨h0, h1⟩]

lemma writeInt16BE_ok (buf : Buffer) (v : Int) (off : Nat) (h0 : -32768 ≤ v) (h1 : v ≤ 32767) :
    writeInt16BE buf v off =
      .ok ((buf.set off ((v % 65536).toNat / 256)).set (off + 1) ((v % 65536).toNat % 256)) := by
  rw [writeInt16BE, if_pos ⟨h0, h1⟩]

lemma writeInt16BE_err (buf : Buffer) (v : Int) (off : Nat) (h : 32767 < v ∨ v < -32768) :
    writeInt16BE buf v off = .error "ERR_OUT_OF_RANGE" := by
  rw [writeInt16BE, if_neg (by omega)]

lemma readUInt16BE_words2_at0 (w0 w1 : Nat) (h0 : w0 < 65536) :
    readUInt16BE (bufferOfWords [w0, w1]) 0 = w0 := by
  simp [bufferOfWords, readUInt16BE]
  omega

lemma readUInt16BE_words2_at2 (w0 w1 : Nat) (h1 : w1 < 65536) :
    readUInt16BE (bufferOfWords [w0, w1]) 2 = w1 := by
  simp [bufferOfWords, readUInt16BE]
  omega

lemma readUInt16BE_words1_at0 (w0 : Nat) (h0 : w0 < 65536) :
    readUInt16BE (bufferOfWords [w0]) 0 = w0 := by
  simp [bufferOfWords, readUInt16BE]
  omega

lemma land_65535 (x : Nat) : x &&& 65535 = x % 65536 := by
  have h := Nat.and_pow_two_sub_one_eq_mod x 16
  norm_num at h
  exact h

lemma toUint32_ofNat (n : Nat) (h : n < 4294967296) : toUint32 (n : Int) = n := by
  unfold toUint32
  omega

lemma jsAnd_65535 (a : Int) : jsAnd a 65535 = ((toUint32 a % 65536 : Nat) : Int) := by
  unfold jsAnd
  rw [show toUint32 (65535 : Int) = 65535 from by unfold toUint32; rfl, land_65535]
  unfold toInt32
  split_ifs <;> omega

lemma jsShr16_land (v : Int) : jsAnd (jsShr v 16) 65535 = ((toUint32 v / 65536 : Nat) : Int) := by
  rw [jsAnd_65535]
  unfold jsShr toInt32 toUint32
  have e : (2:Int) ^ (16 % 32) = 65536 := by norm_num
  rw [e]
  split_ifs <;> omega

lemma parse_uint16 (r : Register) (hr : r.type = .uint16) (w : Nat) (hw : w < 65536) :
    parseRegisterValue r (bufferOfWords [w]) = .ok (.num w) := by
  unfold parseRegisterValue
  rw [hr]
  simp only []
  rw [readUInt16BE_words1_at0 w hw]

lemma parse_int16 (r : Register) (hr : r.type = .int16) (w : Nat) (hw : w < 65536) :
    parseRegisterValue r (bufferOfWords [w]) = .ok (.num (toSigned16 w)) := by
  unfold parseRegisterValue readInt16BE
  rw [hr]
  simp only []
  rw [readUInt16BE_words1_at0 w hw]

lemma parse_uint32 (r : Register) (hr : r.type = .uint32) (lo hi : Nat)
    (hlo : lo < 65536) (hhi : hi < 65536) :
    parseRegisterValue r (bufferOfWords [lo, hi]) =
      .ok (.num (if hi < 32768 then ((hi * 65536 + lo : Nat) : Int)
        else ((hi * 65536 + lo : Nat) : Int) - 4294967296)) := by
  unfold parseRegisterValue
  rw [hr]
  simp only []
  rw [readUInt16BE_words2_at0 lo hi hlo, readUInt16BE_words2_at2 lo hi hhi]
  rw [jsOr_jsShl16 hi lo hhi hlo]

lemma toSigned16_small (w : Nat) (hw : w < 32768) : toSigned16 w = (w : Int) := by
  unfold toSigned16
  rw [if_pos hw]

lemma parse_int32_small (r : Register) (hr : r.type = .int32) (lo hi : Nat)
    (hlo : lo < 32768) (hhi : hi < 32768) :
    parseRegisterValue r (bufferOfWords [lo, hi]) =
      .ok (.num ((hi * 65536 + lo : Nat) : Int)) := by
  unfold parseRegisterValue readInt16BE
  rw [hr]
  simp only []
  rw [readUInt16BE_words2_at0 lo hi (by omega), readUInt16BE_words2_at2 lo hi (by omega)]
  rw [toSigned16_small lo hlo, toSigned16_small hi hhi]
  rw [jsOr_jsShl16 hi lo (by omega) (by omega)]
  rw [if_pos hhi]

lemma parse_float_words (r : Register) (hr : r.type = .float) (w0 w1 : Nat)
    (h0 : w0 < 65536) (h1 : w1 < 65536) :
    parseRegisterValue r (bufferOfWords [w0, w1]) = .ok (.fnum (w0 * 65536 + w1)) := by
  unfold parseRegisterValue
  rw [hr]
  simp only []
  rw [readUInt16BE_words2_at0 w0 w1 h0, readUInt16BE_words2_at2 w0 w1 h1]
  rw [writeUInt16BE_ok _ _ 0 (by omega) (by omega)]
  simp only [Bind.bind, Except.bind, List.set]
  rw [writeUInt16BE_ok _ _ 2 (by omega) (by omega)]
  simp only [List.set, readUInt32BE, List.getD, List.get?]
  norm_num
  omega

lemma swapPairs_bufferOfWords (ws : List Nat) :
    swapPairs (bufferOfWords ws) = ws.flatMap fun w => [w % 256, w / 256 % 256] := by
  induction ws with
  | nil => rfl
  | cons w ws ih =>
    show swapPairs (w / 256 % 256 :: w % 256 :: bufferOfWords ws) = _
    rw [swapPairs]
    rw [ih]
    rfl

lemma parse_ascii_spec (r : Register) (hr : r.type = .ascii) (ws : List Nat) :
    parseRegisterValue r (bufferOfWords ws) = .ok (.str (specAsciiDecode ws)) := by
  unfold parseRegisterValue
  rw [hr]
  simp only []
  rw [swapPairs_bufferOfWords]
  rfl

/-! ## Encoder helper lemmas -/

lemma encode_uint16 (r : Register) (hr : r.type = .uint16) (hlen : r.length = 1)
    (v : Int) (h0 : 0 ≤ v) (h1 : v ≤ 65535) :
    encodeRegisterValue r (.num v) = .ok [v.toNat] := by
  unfold encodeRegisterValue
  rw [hr, hlen]
  simp only []
  rw [writeUInt16BE_ok _ v 0 h0 h1]
  simp only [List.set, Bind.bind, Except.bind, readUInt16BE, List.getD, List.get?, List.replicate]
  norm_num
  omega

lemma encode_int16 (r : Register) (hr : r.type = .int16) (hlen : r.length = 1)
    (v : Int) (h0 : -32768 ≤ v) (h1 : v ≤ 32767) :
    encodeRegisterValue r (.num v) = .ok [(v % 65536).toNat] := by
  unfold encodeRegisterValue
  rw [hr, hlen]
  simp only []
  rw [writeInt16BE_ok _ v 0 h0 h1]
  simp only [List.set, Bind.bind, Except.bind, readUInt16BE, List.getD, List.get?, List.replicate]
  norm_num
  omega

lemma encode_uint32 (r : Register) (hr : r.type = .uint32) (hlen : r.length = 2)
    (v : Int) (h0 : 0 ≤ v) (h1 : v < 4294967296) :
    encodeRegisterValue r (.num v) = .ok [v.toNat % 65536, v.toNat / 65536] := by
  have hu : toUint32 v = v.toNat := by unfold toUint32; omega
  unfold encodeRegisterValue
  rw [hr, hlen]
  simp only []
  rw [jsAnd_65535, jsShr16_land, hu]
  rw [writeUInt16BE_ok _ _ 0 (by omega) (by exact_mod_cast Int.ofNat_le.mpr (by omega))]
  simp only [Bind.bind, Except.bind, List.set]
  rw [writeUInt16BE_ok _ _ 2 (by omega) (by exact_mod_cast Int.ofNat_le.mpr (by omega))]
  simp only [List.set, readUInt16BE, List.getD, List.get?, List.replicate]
  norm_num
  omega

lemma encode_int32_ok (r : Register) (hr : r.type = .int32) (hlen : r.length = 2)
    (n : Nat) (hlo : n % 65536 < 32768) (hhi : n / 65536 < 32768) :
    encodeRegisterValue r (.num (n : Int)) = .ok [n % 65536, n / 65536] := by
  have hn : n < 4294967296 := by omega
  have hu : toUint32 (n : Int) = n := toUint32_ofNat n hn
  unfold encodeRegisterValue
  rw [hr, hlen]
  simp only []
  rw [jsAnd_65535, jsShr16_land, hu]
  rw [writeInt16BE_ok _ _ 0 (by omega) (by exact_mod_cast Int.ofNat_le.mpr (by omega))]
  simp only [Bind.bind, Except.bind, List.set]
  rw [writeInt16BE_ok _ _ 2 (by omega) (by exact_mod_cast Int.ofNat_le.mpr (by omega))]
  simp only [List.set, readUInt16BE, List.getD, List.get?, List.replicate]
  norm_num
  omega

lemma encode_int32_err_neg (r : Register) (hr : r.type = .int32) (hlen : r.length = 2)
    (v : Int) (h0 : -2147483648 ≤ v) (h1 : v < 0) :
    encodeRegisterValue r (.num v) = .error "ERR_OUT_OF_RANGE" := by
  have hu : toUint32 v = (v + 4294967296).toNat := by unfold toUint32; omega
  unfold encodeRegisterValue
  rw [hr, hlen]
  simp only []
  rw [jsAnd_65535, jsShr16_land, hu]
  by_cases hc : (v + 4294967296).toNat % 65536 < 32768
  · rw [writeInt16BE_ok _ _ 0 (by omega) (by exact_mod_cast Int.ofNat_le.mpr (by omega))]
    simp only [Bind.bind, Except.bind, List.set]
    rw [writeInt16BE_err _ _ 2 (by left; exact_mod_cast Int.ofNat_lt.mpr (by omega))]
  · rw [writeInt16BE_err _ _ 0 (by left; exact_mod_cast Int.ofNat_lt.mpr (by omega))]
    simp only [Bind.bind, Except.bind]

lemma encode_float (r : Register) (hr : r.type = .float) (hlen : r.length = 2)
    (bits : Nat) (hb : bits < 4294967296) :
    encodeRegisterValue r (.fnum bits) = .ok [bits / 65536, bits % 65536] := by
  unfold encodeRegisterValue floatBytes
  rw [hr, hlen]
  simp only [readUInt16BE, List.getD, List.get?]
  norm_num
  rw [writeUInt16BE_ok _ _ 0 (by omega) (by exact_mod_cast Int.ofNat_le.mpr (by omega))]
  simp only [Bind.bind, Except.bind, List.set]
  rw [writeUInt16BE_ok _ _ 2 (by omega) (by exact_mod_cast Int.ofNat_le.mpr (by omega))]
  simp only [List.set, readUInt16BE, List.getD, List.get?, List.replicate]
  norm_num
  omega

/-! ## Session helper lemmas -/

lemma attemptRead_notConn (register : Register) (oracle : Nat → Except ErrKind Buffer)
    (s : SessionState) (calls : Nat) (hs : s.isConnected = false) :
    attemptRead register oracle s calls = (.error .notConnected, calls) := by
  simp [attemptRead, hs]

lemma readRegister_notConn (catalog : String → Option Register) (maxRetries : Nat)
    (oracle : Nat → Except ErrKind Buffer) (name : String) (r : Register)
    (hr : catalog name = some r) (hR : stringIncludes r.access 'R' = true)
    (s : SessionState) (hs : s.isConnected = false) (calls : Nat) (rc : Nat) :
    readRegister catalog maxRetries oracle name rc s calls =
      ⟨.error .notConnected, s, calls, [], List.replicate (maxRetries - rc) 500⟩ := by
  generalize hn : maxRetries - rc = n
  induction n generalizing rc with
  | zero =>
    rw [readRegister, hr]
    simp only [hR, Bool.true_eq_false, if_false, attemptRead_notConn r oracle s calls hs]
    rw [dif_neg (by omega)]
    simp [errIndicatesConnLoss, hn]
  | succ n ih =>
    rw [readRegister, hr]
    simp only [hR, Bool.true_eq_false, if_false, attemptRead_notConn r oracle s calls hs]
    rw [dif_pos (by omega)]
    rw [ih (rc + 1) (by omega)]
    have h2 : maxRetries - rc = n + 1 := hn
    simp [List.replicate_succ]

lemma readRegister_unknown (catalog : String → Option Register) (maxRetries : Nat)
    (oracle : Nat → Except ErrKind Buffer) (name : String) (hr : catalog name = none)
    (rc : Nat) (s : SessionState) (calls : Nat) :
    readRegister catalog maxRetries oracle name rc s calls =
      ⟨.error .unknownRegister, s, calls, [], []⟩ := by
  rw [readRegister, hr]

lemma readRegister_notReadable (catalog : String → Option Register) (maxRetries : Nat)
    (oracle : Nat → Except ErrKind Buffer) (name : String) (r : Register)
    (hr : catalog name = some r) (hR : stringIncludes r.access 'R' = false)
    (rc : Nat) (s : SessionState) (calls : Nat) :
    readRegister catalog maxRetries oracle name rc s calls =
      ⟨.error .notReadable, s, calls, [], []⟩ := by
  rw [readRegister, hr]
  simp [hR]

lemma writeRegister_unknown (catalog : String → Option Register) (maxRetries : Nat)
    (oracle : Nat → Option ErrKind) (name : String) (value : Value) (hr : catalog name = none)
    (rc : Nat) (s : SessionState) (calls : Nat) :
    writeRegister catalog maxRetries oracle name value rc s calls =
      ⟨.error .unknownRegister, s, calls, [], []⟩ := by
  rw [writeRegister, hr]

lemma writeRegister_notWritable (catalog : String → Option Register) (maxRetries : Nat)
    (oracle : Nat → Option ErrKind) (name : String) (value : Value) (r : Register)
    (hr : catalog name = some r) (hW : stringIncludes r.access 'W' = false)
    (rc : Nat) (s : SessionState) (calls : Nat) :
    writeRegister catalog maxRetries oracle name value rc s calls =
      ⟨.error .notWritable, s, calls, [], []⟩ := by
  rw [writeRegister, hr]
  simp [hW]

lemma attemptWrite_notConn (register : Register) (value : Value)
    (oracle : Nat → Option ErrKind) (s : SessionState) (calls : Nat)
    (hs : s.isConnected = false) :
    attemptWrite register value oracle s calls = (.error .notConnected, calls) := by
  simp [attemptWrite, hs]

lemma writeRegister_notConn (catalog : String → Option Register) (maxRetries : Nat)
    (oracle : Nat → Option ErrKind) (name : String) (value : Value) (r : Register)
    (hr : catalog name = some r) (hW : stringIncludes r.access 'W' = true)
    (s : SessionState) (hs : s.isConnected = false) (calls : Nat) (rc : Nat) :
    writeRegister catalog maxRetries oracle name value rc s calls =
      ⟨.error .notConnected, s, calls, [], List.replicate (maxRetries - rc) 500⟩ := by
  generalize hn : maxRetries - rc = n
  induction n generalizing rc with
  | zero =>
    rw [writeRegister, hr]
    simp only [hW, Bool.true_eq_false, if_false,
      attemptWrite_notConn r value oracle s calls hs]
    rw [dif_neg (by omega)]
    simp [errIndicatesConnLoss, hn]
  | succ n ih =>
    rw [writeRegister, hr]
    simp only [hW, Bool.true_eq_false, if_false,
      attemptWrite_notConn r value oracle s calls hs]
    rw [dif_pos (by omega)]
    rw [ih (rc + 1) (by omega)]
    have h2 : maxRetries - rc = n + 1 := hn
    simp [List.replicate_succ]

lemma attemptRead_err (register : Register) (oracle : Nat → Except ErrKind Buffer)
    (s : SessionState) (calls : Nat) (k : ErrKind)
    (hs : s.isConnected = true) (ho : oracle calls = .error k) :
    attemptRead register oracle s calls = (.error (.wire k), calls + 1) := by
  simp [attemptRead, hs, ho]

lemma readRegister_allFail_loss (catalog : String → Option Register) (maxRetries : Nat)
    (oracle : Nat → Except ErrKind Buffer) (name : String) (r : Register) (k : ErrKind)
    (hr : catalog name = some r) (hR : stringIncludes r.access 'R' = true)
    (hor : ∀ n, oracle n = .error k) (hk : errIndicatesConnLoss (.wire k) = true)
    (s : SessionState) (hs : s.isConnected = true) (calls : Nat) (rc : Nat) :
    readRegister catalog maxRetries oracle name rc s calls =
      ⟨.error (.wire k), scheduleReconnect { s with isConnected := false },
       calls + (maxRetries - rc) + 1, [.connectionLost],
       List.replicate (maxRetries - rc) 500⟩ := by
  generalize hn : maxRetries - rc = n
  induction n generalizing rc calls with
  | zero =>
    rw [readRegister, hr]
    simp only [hR, Bool.true_eq_false, if_false,
      attemptRead_err r oracle s calls k hs (hor calls)]
    rw [dif_neg (by omega)]
    rw [if_pos hk]
    simp [hn]
  | succ n ih =>
    rw [readRegister, hr]
    simp only [hR, Bool.true_eq_false, if_false,
      attemptRead_err r oracle s calls k hs (hor calls)]
    rw [dif_pos (by omega)]
    rw [ih (calls + 1) (rc + 1) (by omega)]
    simp [List.replicate_succ, RunResult.mk.injEq]
    all_goals omega

lemma attemptWrite_err (register : Register) (value : Value)
    (oracle : Nat → Option ErrKind) (s : SessionState) (calls : Nat) (k : ErrKind)
    (ws : List Nat)
    (hs : s.isConnected = true) (he : encodeRegisterValue register value = .ok ws)
    (ho : oracle calls = some k) :
    attemptWrite register value oracle s calls = (.error (.wire k), calls + 1) := by
  simp [attemptWrite, hs, he, ho]

lemma writeRegister_allFail_loss (catalog : String → Option Register) (maxRetries : Nat)
    (oracle : Nat → Option ErrKind) (name : String) (value : Value) (r : Register)
    (k : ErrKind) (ws : List Nat)
    (hr : catalog name = some r) (hW : stringIncludes r.access 'W' = true)
    (he : encodeRegisterValue r value = .ok ws)
    (hor : ∀ n, oracle n = some k) (hk : errIndicatesConnLoss (.wire k) = true)
    (s : SessionState) (hs : s.isConnected = true) (calls : Nat) (rc : Nat) :
    writeRegister catalog maxRetries oracle name value rc s calls =
      ⟨.error (.wire k), scheduleReconnect { s with isConnected := false },
       calls + (maxRetries - rc) + 1, [.connectionLost],
       List.replicate (maxRetries - rc) 500⟩ := by
  generalize hn : maxRetries - rc = n
  induction n generalizing rc calls with
  | zero =>
    rw [writeRegister, hr]
    simp only [hW, Bool.true_eq_false, if_false,
      attemptWrite_err r value oracle s calls k ws hs he (hor calls)]
    rw [dif_neg (by omega)]
    rw [if_pos hk]
    simp [hn]
  | succ n ih =>
    rw [writeRegister, hr]
    simp only [hW, Bool.true_eq_false, if_false,
      attemptWrite_err r value oracle s calls k ws hs he (hor calls)]
    rw [dif_pos (by omega)]
    rw [ih (calls + 1) (rc + 1) (by omega)]
    simp [List.replicate_succ, RunResult.mk.injEq]
    all_goals omega

lemma lookup_EVSE_STATE :
    registersLookup "EVSE_STATE" = some ⟨0x0100, 1, .uint16, "R"⟩ := by rfl

lemma lookup_HEARTBEAT_EM :
    registersLookup "HEARTBEAT_EM" = some ⟨0x0D00, 1, .uint16, "W"⟩ := by rfl

lemma lookup_unknown_name :
    registersLookup "NOT_A_REGISTER" = none := by rfl

/-! ## Claim theorems -/

/-- Claim C1 (code bug in the source): `parseRegisterValue` with type
`float` does NOT place word[1]'s bytes before word[0]'s bytes — its
temporary-buffer copy is the identity — so for the word pair
`[0x0000, 0x41A0]` (`MAX_CURRENT_EVSE`'s calibration value) it returns the
float32 with big-endian pattern `0x000041A0`, the denormal
`16800 · 2⁻¹⁴⁹ ≈ 2.35·10⁻⁴¹`, and not `20.0`; `20.0` is the value of the
pattern `0x41A00000` that the swap described by the claim would produce. -/
theorem C1_float_decode_no_swap :
    parseRegisterValue ⟨0x0306, 2, .float, "R"⟩ (bufferOfWords [0x0000, 0x41A0]) =
      .ok (.fnum 0x000041A0) ∧
    float32ToRat 0x000041A0 = 16800 / 2 ^ 149 ∧
    float32ToRat 0x000041A0 ≠ 20 ∧
    float32ToRat 0x41A00000 = 20 := by
  refine ⟨by decide, ?_, ?_, ?_⟩
  · norm_num [float32ToRat]
  · norm_num [float32ToRat]
  · norm_num [float32ToRat]

/-- Claim C2, counterexample: the round trip fails for `uint32` at
`v = 2³¹` (decoding returns `-2³¹`), and for `int32` the encoder throws a
range error at `v = -1` (`value & 0xFFFF` is `65535`, out of
`writeInt16BE`'s range), so `decode(encode(v)) = v` does not hold for every
representable value of every writable type. -/
theorem C2_roundtrip_counterexample :
    decodeEncode ⟨0x0B04, 2, .uint32, "R"⟩ (.num 2147483648) =
      .ok (.num (-2147483648)) ∧
    (-2147483648 : Int) ≠ 2147483648 ∧
    encodeRegisterValue ⟨0, 2, .int32, "RW"⟩ (.num (-1)) =
      .error "ERR_OUT_OF_RANGE" := by
  refine ⟨by decide, by decide, by decide⟩

/-- Claim C2, amended: the round trip `decode(encode(v)) = v` holds exactly
for `uint16` on `[0, 65535]`, `int16` on `[-32768, 32767]`, `uint32` on
`[0, 2³¹)` (values in `[2³¹, 2³²)` decode to `v - 2³²`), `int32` on the
values the encoder accepts — both 16-bit halves below `0x8000`; every
negative `int32` value makes `encodeRegisterValue` throw a range error —
and bit-exactly for `float` on finite single-precision patterns. -/
theorem C2_roundtrip_amended :
    (∀ (r : Register) (v : Int), r.type = .uint16 → r.length = 1 →
      0 ≤ v → v ≤ 65535 → decodeEncode r (.num v) = .ok (.num v)) ∧
    (∀ (r : Register) (v : Int), r.type = .int16 → r.length = 1 →
      -32768 ≤ v → v ≤ 32767 → decodeEncode r (.num v) = .ok (.num v)) ∧
    (∀ (r : Register) (v : Int), r.type = .uint32 → r.length = 2 →
      0 ≤ v → v < 2147483648 → decodeEncode r (.num v) = .ok (.num v)) ∧
    (∀ (r : Register) (v : Int), r.type = .uint32 → r.length = 2 →
      2147483648 ≤ v → v < 4294967296 →
      decodeEncode r (.num v) = .ok (.num (v - 4294967296))) ∧
    (∀ (r : Register) (n : Nat), r.type = .int32 → r.length = 2 →
      n % 65536 < 32768 → n / 65536 < 32768 →
      decodeEncode r (.num (n : Int)) = .ok (.num (n : Int))) ∧
    (∀ (r : Register) (v : Int), r.type = .int32 → r.length = 2 →
      -2147483648 ≤ v → v < 0 →
      decodeEncode r (.num v) = .error "ERR_OUT_OF_RANGE") ∧
    (∀ (r : Register) (bits : Nat), r.type = .float → r.length = 2 →
      bits < 4294967296 → ¬ float32ExpAllOnes bits →
      decodeEncode r (.fnum bits) = .ok (.fnum bits)) := by
  refine ⟨?_, ?_, ?_, ?_, ?_, ?_, ?_⟩
  · intro r v h1 h2 h3 h4
    unfold decodeEncode
    rw [encode_uint16 r h1 h2 v h3 h4]
    simp only [Except.bind]
    rw [parse_uint16 r h1 v.toNat (by omega)]
    have e : ((v.toNat : Nat) : Int) = v := by omega
    rw [e]
  · intro r v h1 h2 h3 h4
    unfold decodeEncode
    rw [encode_int16 r h1 h2 v h3 h4]
    simp only [Except.bind]
    rw [parse_int16 r h1 (v % 65536).toNat (by omega)]
    have e : toSigned16 (v % 65536).toNat = v := by
      unfold toSigned16
      split_ifs <;> omega
    rw [e]
  · intro r v h1 h2 h3 h4
    unfold decodeEncode
    rw [encode_uint32 r h1 h2 v h3 (by omega)]
    simp only [Except.bind]
    rw [parse_uint32 r h1 (v.toNat % 65536) (v.toNat / 65536) (by omega) (by omega)]
    rw [if_pos (by omega)]
    have e : ((v.toNat / 65536 * 65536 + v.toNat % 65536 : Nat) : Int) = v := by omega
    rw [e]
  · intro r v h1 h2 h3 h4
    unfold decodeEncode
    rw [encode_uint32 r h1 h2 v (by omega) h4]
    simp only [Except.bind]
    rw [parse_uint32 r h1 (v.toNat % 65536) (v.toNat / 65536) (by omega) (by omega)]
    rw [if_neg (by omega)]
    have e : ((v.toNat / 65536 * 65536 + v.toNat % 65536 : Nat) : Int) - 4294967296 =
        v - 4294967296 := by omega
    rw [e]
  · intro r n h1 h2 h3 h4
    unfold decodeEncode
    rw [encode_int32_ok r h1 h2 n h3 h4]
    simp only [Except.bind]
    rw [parse_int32_small r h1 (n % 65536) (n / 65536) h3 h4]
    have e : ((n / 65536 * 65536 + n % 65536 : Nat) : Int) = (n : Int) := by omega
    rw [e]
  · intro r v h1 h2 h3 h4
    unfold decodeEncode
    rw [encode_int32_err_neg r h1 h2 v h3 h4]
    simp only [Except.bind]
  · intro r bits h1 h2 h3 _h4
    unfold decodeEncode
    rw [encode_float r h1 h2 bits h3]
    simp only [Except.bind]
    rw [parse_float_words r h1 (bits / 65536) (bits % 65536) (by omega) (by omega)]
    have e : bits / 65536 * 65536 + bits % 65536 = bits := by omega
    rw [e]

/-- Claim C2 witness: each amended clause applied at a concrete input. -/
theorem C2_roundtrip_amended_witness :
    decodeEncode ⟨0x0000, 1, .uint16, "R"⟩ (.num 12345) = .ok (.num 12345) ∧
    decodeEncode ⟨0, 1, .int16, "RW"⟩ (.num (-123)) = .ok (.num (-123)) ∧
    decodeEncode ⟨0x0B04, 2, .uint32, "R"⟩ (.num 70000) = .ok (.num 70000) ∧
    decodeEncode ⟨0x0B04, 2, .uint32, "R"⟩ (.num 4294967295) =
      .ok (.num (4294967295 - 4294967296)) ∧
    decodeEncode ⟨0, 2, .int32, "RW"⟩ (.num ((70000 : Nat) : Int)) =
      .ok (.num ((70000 : Nat) : Int)) ∧
    decodeEncode ⟨0, 2, .int32, "RW"⟩ (.num (-5)) = .error "ERR_OUT_OF_RANGE" ∧
    decodeEncode ⟨0x0302, 2, .float, "RW"⟩ (.fnum 0x41A00000) = .ok (.fnum 0x41A00000) :=
  ⟨C2_roundtrip_amended.1 _ 12345 rfl rfl (by norm_num) (by norm_num),
   C2_roundtrip_amended.2.1 _ (-123) rfl rfl (by norm_num) (by norm_num),
   C2_roundtrip_amended.2.2.1 _ 70000 rfl rfl (by norm_num) (by norm_num),
   C2_roundtrip_amended.2.2.2.1 _ 4294967295 rfl rfl (by norm_num) (by norm_num),
   C2_roundtrip_amended.2.2.2.2.1 _ 70000 rfl rfl (by norm_num) (by norm_num),
   C2_roundtrip_amended.2.2.2.2.2.1 _ (-5) rfl rfl (by norm_num) (by norm_num),
   C2_roundtrip_amended.2.2.2.2.2.2 _ 0x41A00000 rfl rfl (by norm_num) (by decide)⟩

/-- Claim C3, counterexample: decoding the word pair `[lo, hi] = [0, 0x8000]`
as `uint32` yields `-2147483648`, a negative number, not the claimed
non-negative `hi·2¹⁶ + lo = 2147483648` (the JavaScript `<<`/`|` operate on
signed 32-bit values). -/
theorem C3_uint32_counterexample :
    parseRegisterValue ⟨0x0B04, 2, .uint32, "R"⟩ (bufferOfWords [0, 0x8000]) =
      .ok (.num (-2147483648)) ∧
    (-2147483648 : Int) ≠ (0x8000 * 65536 + 0 : Int) := by
  refine ⟨by decide, by decide⟩

/-- Claim C3, amended: for every word pair `[lo, hi]`, `uint32` decoding
yields `hi·2¹⁶ + lo` reduced into the signed 32-bit range — the claimed
non-negative value when `hi < 0x8000`, and `hi·2¹⁶ + lo - 2³²` (negative)
when `hi ≥ 0x8000`; word[0] is always the low half, word[1] the high half. -/
theorem C3_uint32_decode_amended :
    ∀ (r : Register) (lo hi : Nat), r.type = .uint32 → lo < 65536 → hi < 65536 →
      parseRegisterValue r (bufferOfWords [lo, hi]) =
        .ok (.num (if hi < 32768 then ((hi * 65536 + lo : Nat) : Int)
          else ((hi * 65536 + lo : Nat) : Int) - 4294967296)) :=
  fun r lo hi hr hlo hhi => parse_uint32 r hr lo hi hlo hhi

/-- Claim C3 witness: the amended decode law at `[lo, hi] = [1, 2]`. -/
theorem C3_uint32_decode_amended_witness :
    parseRegisterValue ⟨0x0B04, 2, .uint32, "R"⟩ (bufferOfWords [1, 2]) =
      .ok (.num (if 2 < 32768 then ((2 * 65536 + 1 : Nat) : Int)
        else ((2 * 65536 + 1 : Nat) : Int) - 4294967296)) :=
  C3_uint32_decode_amended ⟨0x0B04, 2, .uint32, "R"⟩ 1 2 rfl (by norm_num) (by norm_num)

/-- Claim C4, counterexample: `readRegister('EVSE_STATE')` on a
disconnected session does fail with the NotConnected error, but not
immediately — the not-connected check sits inside the retried `try` block,
so the call first performs `maxRetries = 3` retries, each preceded by a
500 ms delay. -/
theorem C4_notConnected_counterexample :
    readRegister registersLookup 3 (fun _ => .error .other) "EVSE_STATE" 0
      ⟨false, false, 0, false, 0⟩ 0 =
      ⟨.error .notConnected, ⟨false, false, 0, false, 0⟩, 0, [], [500, 500, 500]⟩ ∧
    ([500, 500, 500] : List Nat) ≠ [] := by
  constructor
  · exact readRegister_notConn registersLookup 3 _ "EVSE_STATE" _
      lookup_EVSE_STATE (by decide) _ rfl 0 0
  · decide

/-- Claim C4, amended: a read or write on a known, accessible register
while disconnected fails with the NotConnected error only after
`maxRetries` retried attempts, each preceded by a 500 ms delay; no wire
operation is issued, no event is emitted, and the session state (including
reconnect scheduling and timers) is unchanged. -/
theorem C4_notConnected_amended :
    (∀ (catalog : String → Option Register) (maxRetries : Nat)
      (oracle : Nat → Except ErrKind Buffer) (name : String) (r : Register)
      (s : SessionState) (calls : Nat),
      catalog name = some r → stringIncludes r.access 'R' = true →
      s.isConnected = false →
      readRegister catalog maxRetries oracle name 0 s calls =
        ⟨.error .notConnected, s, calls, [], List.replicate maxRetries 500⟩) ∧
    (∀ (catalog : String → Option Register) (maxRetries : Nat)
      (oracle : Nat → Option ErrKind) (name : String) (value : Value) (r : Register)
      (s : SessionState) (calls : Nat),
      catalog name = some r → stringIncludes r.access 'W' = true →
      s.isConnected = false →
      writeRegister catalog maxRetries oracle name value 0 s calls =
        ⟨.error .notConnected, s, calls, [], List.replicate maxRetries 500⟩) := by
  constructor
  · intro catalog maxRetries oracle name r s calls hr hR hs
    have h := readRegister_notConn catalog maxRetries oracle name r hr hR s hs calls 0
    rwa [Nat.sub_zero] at h
  · intro catalog maxRetries oracle name value r s calls hr hW hs
    have h := writeRegister_notConn catalog maxRetries oracle name value r hr hW s hs calls 0
    rwa [Nat.sub_zero] at h

/-- Claim C4 witness: both amended clauses at a concrete disconnected
session (read of `EVSE_STATE`, write of `HEARTBEAT_EM`). -/
theorem C4_notConnected_amended_witness :
    readRegister registersLookup 3 (fun _ => .error .other) "EVSE_STATE" 0
      ⟨false, false, 0, false, 0⟩ 0 =
      ⟨.error .notConnected, ⟨false, false, 0, false, 0⟩, 0, [],
        List.replicate 3 500⟩ ∧
    writeRegister registersLookup 3 (fun _ => none) "HEARTBEAT_EM" (.num 0x55AA) 0
      ⟨false, false, 0, false, 0⟩ 0 =
      ⟨.error .notConnected, ⟨false, false, 0, false, 0⟩, 0, [],
        List.replicate 3 500⟩ :=
  ⟨C4_notConnected_amended.1 registersLookup 3 _ "EVSE_STATE" _
      ⟨false, false, 0, false, 0⟩ 0 lookup_EVSE_STATE (by decide) rfl,
   C4_notConnected_amended.2 registersLookup 3 _ "HEARTBEAT_EM" (.num 0x55AA) _
      ⟨false, false, 0, false, 0⟩ 0 lookup_HEARTBEAT_EM (by decide) rfl⟩

/-- Claim C5, counterexample: an attempt that fails with a timeout but will
still be retried does NOT mark the session Disconnected, emit
`connectionLost`, or schedule a reconnect — with the first wire call timing
out and the retry succeeding, the run returns the value with no events, no
state change and no pending reconnect (the connection-lost block runs only
in the final, non-retried attempt). -/
theorem C5_connLost_counterexample :
    readRegister registersLookup 3
      (fun n => if n = 0 then .error .timedOut else .ok [0, 5]) "EVSE_STATE" 0
      ⟨true, false, 0, false, 0⟩ 0 =
      ⟨.ok (.num 5), ⟨true, false, 0, false, 0⟩, 2, [], [500]⟩ ∧
    Event.connectionLost ∉
      (readRegister registersLookup 3
        (fun n => if n = 0 then .error .timedOut else .ok [0, 5]) "EVSE_STATE" 0
        ⟨true, false, 0, false, 0⟩ 0).events ∧
    (readRegister registersLookup 3
      (fun n => if n = 0 then .error .timedOut else .ok [0, 5]) "EVSE_STATE" 0
      ⟨true, false, 0, false, 0⟩ 0).state = ⟨true, false, 0, false, 0⟩ := by
  have h : readRegister registersLookup 3
      (fun n => if n = 0 then .error .timedOut else .ok [0, 5]) "EVSE_STATE" 0
      ⟨true, false, 0, false, 0⟩ 0 =
      ⟨.ok (.num 5), ⟨true, false, 0, false, 0⟩, 2, [], [500]⟩ := by
    rw [readRegister, lookup_EVSE_STATE]
    norm_num [attemptRead, parseRegisterValue, readUInt16BE, stringIncludes]
    rw [readRegister, lookup_EVSE_STATE]
    norm_num [attemptRead, parseRegisterValue, readUInt16BE, stringIncludes]
  refine ⟨h, ?_, ?_⟩
  · rw [h]
    decide
  · rw [h]

/-- Claim C5, amended: the connection-lost transition (mark Disconnected,
emit `connectionLost`, schedule a reconnect) happens only once the retry
budget is exhausted: when every attempt of a read or write fails with an
error whose message indicates `Port Not Open` or `Timed Out`, the final
attempt — after `maxRetries` 500 ms-delayed retries — performs exactly that
transition and re-throws the error. -/
theorem C5_connLost_amended :
    (∀ (catalog : String → Option Register) (maxRetries : Nat)
      (oracle : Nat → Except ErrKind Buffer) (name : String) (r : Register)
      (k : ErrKind) (s : SessionState) (calls : Nat),
      catalog name = some r → stringIncludes r.access 'R' = true →
      (∀ n, oracle n = .error k) → errIndicatesConnLoss (.wire k) = true →
      s.isConnected = true →
      readRegister catalog maxRetries oracle name 0 s calls =
        ⟨.error (.wire k), scheduleReconnect { s with isConnected := false },
         calls + maxRetries + 1, [.connectionLost],
         List.replicate maxRetries 500⟩) ∧
    (∀ (catalog : String → Option Register) (maxRetries : Nat)
      (oracle : Nat → Option ErrKind) (name : String) (value : Value)
      (r : Register) (k : ErrKind) (ws : List Nat) (s : SessionState) (calls : Nat),
      catalog name = some r → stringIncludes r.access 'W' = true →
      encodeRegisterValue r value = .ok ws →
      (∀ n, oracle n = some k) → errIndicatesConnLoss (.wire k) = true →
      s.isConnected = true →
      writeRegister catalog maxRetries oracle name value 0 s calls =
        ⟨.error (.wire k), scheduleReconnect { s with isConnected := false },
         calls + maxRetries + 1, [.connectionLost],
         List.replicate maxRetries 500⟩) := by
  constructor
  · intro catalog maxRetries oracle name r k s calls hr hR hor hk hs
    have h := readRegister_allFail_loss catalog maxRetries oracle name r k
      hr hR hor hk s hs calls 0
    rwa [Nat.sub_zero] at h
  · intro catalog maxRetries oracle name value r k ws s calls hr hW he hor hk hs
    have h := writeRegister_allFail_loss catalog maxRetries oracle name value r k ws
      hr hW he hor hk s hs calls 0
    rwa [Nat.sub_zero] at h

/-- Claim C5 witness: the amended transition at a concrete always-timing-out
transport, for a read of `EVSE_STATE` and a write of `HEARTBEAT_EM`. -/
theorem C5_connLost_amended_witness :
    readRegister registersLookup 2 (fun _ => .error .timedOut) "EVSE_STATE" 0
      ⟨true, false, 0, false, 0⟩ 0 =
      ⟨.error (.wire .timedOut),
       scheduleReconnect { (⟨true, false, 0, false, 0⟩ : SessionState) with
         isConnected := false },
       0 + 2 + 1, [.connectionLost], List.replicate 2 500⟩ ∧
    writeRegister registersLookup 2 (fun _ => some .portNotOpen) "HEARTBEAT_EM"
      (.num 0x55AA) 0 ⟨true, false, 0, false, 0⟩ 0 =
      ⟨.error (.wire .portNotOpen),
       scheduleReconnect { (⟨true, false, 0, false, 0⟩ : SessionState) with
         isConnected := false },
       0 + 2 + 1, [.connectionLost], List.replicate 2 500⟩ :=
  ⟨C5_connLost_amended.1 registersLookup 2 _ "EVSE_STATE" _ .timedOut
      ⟨true, false, 0, false, 0⟩ 0 lookup_EVSE_STATE (by decide) (fun _ => rfl) rfl rfl,
   C5_connLost_amended.2 registersLookup 2 _ "HEARTBEAT_EM" (.num 0x55AA) _
      .portNotOpen [0x55AA] ⟨true, false, 0, false, 0⟩ 0 lookup_HEARTBEAT_EM
      (by decide) (by decide) (fun _ => rfl) rfl rfl⟩

/-- Claim C6 (code bug in the source): after a scheduled reconnect attempt's
`connect()` fails, NO further reconnect is scheduled — `scheduleReconnect`
inside the failed `connect()` is a no-op because the `reconnecting` flag,
cleared only on success, is still set.  Starting from the state left by a
connection loss (`reconnecting = true`, one pending timer), firing the
timer with a failing `connect()` leaves zero pending reconnects; the same
failing `connect()` outside a reconnect cycle does schedule one, showing
the gate (not the failure path) is what suppresses it. -/
theorem C6_reconnect_not_rescheduled :
    (fireScheduledReconnect ⟨false, true, 1, false, 0⟩ false).1 =
      ⟨false, true, 0, false, 0⟩ ∧
    (fireScheduledReconnect ⟨false, true, 1, false, 0⟩ false).1.pendingReconnects = 0 ∧
    (fireScheduledReconnect ⟨false, true, 1, false, 0⟩ false).2 = [.error] ∧
    (connect ⟨false, false, 0, false, 0⟩ false).1.pendingReconnects = 1 := by
  refine ⟨by decide, by decide, by decide, by decide⟩

/-- Claim C7, counterexample: ascii decoding of the word pair
`[0x3256, 0x312E]` yields `"V2.1"` (bytes `56 32 2E 31` after the in-word
swap), not the claimed `"V1."`. -/
theorem C7_ascii_counterexample :
    parseRegisterValue ⟨0x0001, 8, .ascii, "R"⟩ (bufferOfWords [0x3256, 0x312E]) =
      .ok (.str "V2.1") ∧
    ("V2.1" : String) ≠ "V1." := by
  refine ⟨by decide, by decide⟩

/-- Claim C7, amended: ascii decoding swaps the two bytes inside each
16-bit word, concatenates the bytes in word order, strips all null bytes
and trims surrounding whitespace (the general law relates the
implementation to the specification's description `specAsciiDecode`); the
word pair `[0x3256, 0x312E]` in particular decodes to `"V2.1"`. -/
theorem C7_ascii_decode_amended :
    (∀ (r : Register) (ws : List Nat), r.type = .ascii →
      parseRegisterValue r (bufferOfWords ws) = .ok (.str (specAsciiDecode ws))) ∧
    parseRegisterValue ⟨0x0001, 8, .ascii, "R"⟩ (bufferOfWords [0x3256, 0x312E]) =
      .ok (.str "V2.1") :=
  ⟨fun r ws hr => parse_ascii_spec r hr ws, by decide⟩

/-- Claim C7 witness: the general clause applied at the firmware-version
register and the counterexample words. -/
theorem C7_ascii_decode_amended_witness :
    parseRegisterValue ⟨0x0001, 8, .ascii, "R"⟩ (bufferOfWords [0x3256, 0x312E]) =
      .ok (.str (specAsciiDecode [0x3256, 0x312E])) :=
  C7_ascii_decode_amended.1 ⟨0x0001, 8, .ascii, "R"⟩ [0x3256, 0x312E] rfl

/-- Claim C8 (confirmed): for every name absent from the register catalog,
`readRegister` fails with the UnknownRegister error before anything else
happens — the wire-operation count is unchanged (zero wire I/O), no event
is emitted, no delay is taken, and the session state is untouched. -/
theorem C8_unknown_register_no_io :
    ∀ (catalog : String → Option Register) (maxRetries : Nat)
      (oracle : Nat → Except ErrKind Buffer) (name : String)
      (s : SessionState) (calls : Nat),
      catalog name = none →
      readRegister catalog maxRetries oracle name 0 s calls =
        ⟨.error .unknownRegister, s, calls, [], []⟩ :=
  fun catalog maxRetries oracle name s calls hr =>
    readRegister_unknown catalog maxRetries oracle name hr 0 s calls

/-- Claim C8 witness: a typo name against the real catalog, on a connected
session, performs zero wire operations. -/
theorem C8_unknown_register_no_io_witness :
    readRegister registersLookup 3 (fun _ => .ok [0, 5]) "NOT_A_REGISTER" 0
      ⟨true, false, 0, false, 0⟩ 0 =
      ⟨.error .unknownRegister, ⟨true, false, 0, false, 0⟩, 0, [], []⟩ :=
  C8_unknown_register_no_io registersLookup 3 _ "NOT_A_REGISTER"
    ⟨true, false, 0, false, 0⟩ 0 lookup_unknown_name

/-- Claim C9, counterexample: `stopHeartbeat` does not cancel the pending
initial-delay trigger — the source never stores the `setTimeout` handle —
so after `startHeartbeat` immediately followed by `stopHeartbeat` the
2-second first-beat trigger is still armed and will fire a heartbeat
write. -/
theorem C9_stopHeartbeat_counterexample :
    (stopHeartbeat (startHeartbeat ⟨true, false, 0, false, 0⟩)).pendingInitialBeats = 1 ∧
    (1 : Nat) ≠ 0 := by
  refine ⟨by decide, by decide⟩

/-- Claim C9, amended: `stopHeartbeat` cancels the recurring interval timer
and is a safe no-op when the scheduler is not running, but it leaves any
pending initial-delay trigger armed (only the interval handle is stored
and cleared). -/
theorem C9_stopHeartbeat_amended :
    (∀ s : SessionState, (stopHeartbeat s).heartbeatIntervalActive = false) ∧
    (∀ s : SessionState, (stopHeartbeat s).pendingInitialBeats = s.pendingInitialBeats) ∧
    (∀ s : SessionState, s.heartbeatIntervalActive = false → stopHeartbeat s = s) := by
  refine ⟨?_, ?_, ?_⟩
  · intro s
    unfold stopHeartbeat
    split_ifs with h
    · rfl
    · simpa using h
  · intro s
    unfold stopHeartbeat
    split_ifs <;> rfl
  · intro s h
    unfold stopHeartbeat
    rw [if_neg (by simp [h])]

/-- Claim C9 witness: the amended clauses at concrete states (scheduler
running, and not running). -/
theorem C9_stopHeartbeat_amended_witness :
    (stopHeartbeat ⟨true, false, 0, true, 1⟩).heartbeatIntervalActive = false ∧
    (stopHeartbeat ⟨true, false, 0, true, 1⟩).pendingInitialBeats = 1 ∧
    stopHeartbeat ⟨true, false, 0, false, 0⟩ = ⟨true, false, 0, false, 0⟩ :=
  ⟨C9_stopHeartbeat_amended.1 ⟨true, false, 0, true, 1⟩,
   C9_stopHeartbeat_amended.2.1 ⟨true, false, 0, true, 1⟩,
   C9_stopHeartbeat_amended.2.2 ⟨true, false, 0, false, 0⟩ rfl⟩

/-- Claim C10 (confirmed): `readRegister` and `writeRegister` validate the
name and the access right before the connection check: for an unknown name,
and for a known register lacking the required right, the call fails with
that error — even on a disconnected session the result is UnknownRegister /
AccessViolation rather than NotConnected — with no retries, no delays, no
wire I/O, no events, and no change to the session state or timers. -/
theorem C10_validation_before_connection :
    (∀ (catalog : String → Option Register) (maxRetries : Nat)
      (oracle : Nat → Except ErrKind Buffer) (name : String)
      (s : SessionState) (calls : Nat), catalog name = none →
      readRegister catalog maxRetries oracle name 0 s calls =
        ⟨.error .unknownRegister, s, calls, [], []⟩) ∧
    (∀ (catalog : String → Option Register) (maxRetries : Nat)
      (oracle : Nat → Option ErrKind) (name : String) (value : Value)
      (s : SessionState) (calls : Nat), catalog name = none →
      writeRegister catalog maxRetries oracle name value 0 s calls =
        ⟨.error .unknownRegister, s, calls, [], []⟩) ∧
    (∀ (catalog : String → Option Register) (maxRetries : Nat)
      (oracle : Nat → Except ErrKind Buffer) (name : String) (r : Register)
      (s : SessionState) (calls : Nat), catalog name = some r →
      stringIncludes r.access 'R' = false →
      readRegister catalog maxRetries oracle name 0 s calls =
        ⟨.error .notReadable, s, calls, [], []⟩) ∧
    (∀ (catalog : String → Option Register) (maxRetries : Nat)
      (oracle : Nat → Option ErrKind) (name : String) (value : Value)
      (r : Register) (s : SessionState) (calls : Nat), catalog name = some r →
      stringIncludes r.access 'W' = false →
      writeRegister catalog maxRetries oracle name value 0 s calls =
        ⟨.error .notWritable, s, calls, [], []⟩) :=
  ⟨fun catalog maxRetries oracle name s calls hr =>
      readRegister_unknown catalog maxRetries oracle name hr 0 s calls,
   fun catalog maxRetries oracle name value s calls hr =>
      writeRegister_unknown catalog maxRetries oracle name value hr 0 s calls,
   fun catalog maxRetries oracle name r s calls hr hR =>
      readRegister_notReadable catalog maxRetries oracle name r hr hR 0 s calls,
   fun catalog maxRetries oracle name value r s calls hr hW =>
      writeRegister_notWritable catalog maxRetries oracle name value r hr hW 0 s calls⟩

/-- Claim C10 witness: on a disconnected session, reading the write-only
`HEARTBEAT_EM` yields the not-readable error, writing the read-only
`EVSE_STATE` yields the not-writable error, and an unknown name yields
UnknownRegister — never NotConnected, with no retries or side effects. -/
theorem C10_validation_before_connection_witness :
    readRegister registersLookup 3 (fun _ => .error .other) "NOT_A_REGISTER" 0
      ⟨false, false, 0, false, 0⟩ 0 =
      ⟨.error .unknownRegister, ⟨false, false, 0, false, 0⟩, 0, [], []⟩ ∧
    writeRegister registersLookup 3 (fun _ => none) "NOT_A_REGISTER" (.num 1) 0
      ⟨false, false, 0, false, 0⟩ 0 =
      ⟨.error .unknownRegister, ⟨false, false, 0, false, 0⟩, 0, [], []⟩ ∧
    readRegister registersLookup 3 (fun _ => .error .other) "HEARTBEAT_EM" 0
      ⟨false, false, 0, false, 0⟩ 0 =
      ⟨.error .notReadable, ⟨false, false, 0, false, 0⟩, 0, [], []⟩ ∧
    writeRegister registersLookup 3 (fun _ => none) "EVSE_STATE" (.num 1) 0
      ⟨false, false, 0, false, 0⟩ 0 =
      ⟨.error .notWritable, ⟨false, false, 0, false, 0⟩, 0, [], []⟩ :=
  ⟨C10_validation_before_connection.1 registersLookup 3 _ "NOT_A_REGISTER"
      ⟨false, false, 0, false, 0⟩ 0 lookup_unknown_name,
   C10_validation_before_connection.2.1 registersLookup 3 _ "NOT_A_REGISTER" (.num 1)
      ⟨false, false, 0, false, 0⟩ 0 lookup_unknown_name,
   C10_validation_before_connection.2.2.1 registersLookup 3 _ "HEARTBEAT_EM" _
      ⟨false, false, 0, false, 0⟩ 0 lookup_HEARTBEAT_EM (by decide),
   C10_validation_before_connection.2.2.2 registersLookup 3 _ "EVSE_STATE" (.num 1) _
      ⟨false, false, 0, false, 0⟩ 0 lookup_EVSE_STATE (by decide)⟩

end Amtron
